import Mathlib

/-!
Shallow embedding of the ticketing core of the vibesy-backend repository:
the reservation transaction of `paymentRoutes.post('/intent')`
(src/routes/tickets.ts), the Stripe webhook fulfillment handlers
`handlePaymentSucceeded` / `handlePaymentFailed` (routes/webhooks.ts),
the ticket lookup / scan / verify routes (src/routes/tickets.ts and
src/database.ts), and `OTPService.verifyOTP`
(src/services/notificationService.ts).

The relational store is modelled as explicit lists of rows; every SQL
statement of the source becomes a pure function on that state.  A thrown
exception inside a code path is modelled with `Except`, where the error
value carries the database state at the moment of the throw (each
`db.query` call in the source autocommits on its own pooled connection,
so rows written before the throw persist).
-/

namespace Vibesy

/-- Order status column of the `orders` table
(`'pending' | 'completed' | 'failed' | 'refunded'`). -/
inductive OrderStatus
  | pending
  | completed
  | failed
  | refunded
deriving DecidableEq

/-- Ticket status column of the `tickets` table
(`'valid' | 'used' | 'cancelled' | 'refunded'`). -/
inductive TicketStatus
  | valid
  | used
  | cancelled
  | refunded
deriving DecidableEq

/-- Event status column of the `events` table
(`'active' | 'paused' | 'cancelled' | 'completed'`). -/
inductive EventStatus
  | active
  | paused
  | cancelled
  | completed
deriving DecidableEq

/-- A row of the `events` table (the columns the core touches).
`startsAt` is a millisecond timestamp, as compared by JavaScript `Date`. -/
structure EventRow where
  id : Nat
  hostId : Nat
  startsAt : Int
  capacity : Nat
  ticketsSold : Nat
  status : EventStatus
deriving DecidableEq

/-- A row of the `orders` table.  `eventId` is nullable (external-event
orders set `externalEventId` instead); `paymentIntentId` models the
`stripe_payment_intent_id` column (UNIQUE in schema.sql). -/
structure Order where
  id : Nat
  eventId : Option Nat
  externalEventId : Option String
  quantity : Nat
  paymentIntentId : String
  status : OrderStatus
deriving DecidableEq

/-- A row of the `tickets` table.  `qrToken` models the `qr_token`
column (UNIQUE in schema.sql); `eventId` is null for external-event
tickets. -/
structure Ticket where
  orderId : Nat
  eventId : Option Nat
  externalEventId : Option String
  qrToken : String
  status : TicketStatus
  scannedAt : Option Int
  scannedBy : Option Nat
deriving DecidableEq

/-- A row of the `users` table (only the fields the scan route reads). -/
structure User where
  id : Nat
  email : String
deriving DecidableEq

/-- The relational state touched by the core: the `events`, `orders`,
`tickets` and `users` tables. -/
structure DB where
  events : List EventRow
  orders : List Order
  tickets : List Ticket
  users : List User
deriving DecidableEq

/-- `SELECT * FROM events WHERE id = $1` (first matching row),
as used by `findEventById` in src/database.ts. -/
def findEventById : List EventRow → Nat → Option EventRow
  | [], _ => none
  | e :: rest, i => if e.id = i then some e else findEventById rest i

/-- `SELECT * FROM users WHERE email = $1` (first matching row),
as used by `findUserByEmail` in src/database.ts. -/
def findUserByEmail : List User → String → Option User
  | [], _ => none
  | u :: rest, em => if u.email = em then some u else findUserByEmail rest em

/-- First order row matching a `stripe_payment_intent_id`
(the column is UNIQUE, so at most one row matches in practice). -/
def findOrderByPid : List Order → String → Option Order
  | [], _ => none
  | o :: rest, pid => if o.paymentIntentId = pid then some o else findOrderByPid rest pid

/-- `SELECT COUNT(*) FROM tickets WHERE order_id = $1`, the
existing-ticket count read by `handlePaymentSucceeded`. -/
def countTicketsFor : List Ticket → Nat → Nat
  | [], _ => 0
  | t :: rest, oid => (if t.orderId = oid then 1 else 0) + countTicketsFor rest oid

/-- Effect of `UPDATE orders SET status = $1 ... WHERE
stripe_payment_intent_id = $3` from `updateOrderStatus`
(src/database.ts): every row matching the payment intent id gets the
new status; the `WHERE` clause names no other condition. -/
def updateOrdersByPid : List Order → String → OrderStatus → List Order
  | [], _, _ => []
  | o :: rest, pid, st =>
    (if o.paymentIntentId = pid then { o with status := st } else o)
      :: updateOrdersByPid rest pid st

/-- `updateOrderStatus` from src/database.ts: runs the unconditional
status update and returns the updated row (`RETURNING *`, first row). -/
def updateOrderStatus (db : DB) (pid : String) (st : OrderStatus) : DB × Option Order :=
  let orders' := updateOrdersByPid db.orders pid st
  ({ db with orders := orders' }, findOrderByPid orders' pid)

/-- `UPDATE events SET tickets_sold = tickets_sold + $1 WHERE id = $2`,
used both by the reservation transaction and by the webhook fulfillment
handler. -/
def bumpEvents : List EventRow → Nat → Nat → List EventRow
  | [], _, _ => []
  | e :: rest, eid, q =>
    (if e.id = eid then { e with ticketsSold := e.ticketsSold + q } else e)
      :: bumpEvents rest eid q

/-- One ticket row as inserted by `createTickets` (src/database.ts):
internal event id set, fresh qr token, status defaults to `'valid'`
(schema.sql). -/
def mkTicket (orderId eventId i : Nat) (tok : Nat → String) : Ticket :=
  { orderId := orderId, eventId := some eventId, externalEventId := none,
    qrToken := tok i, status := TicketStatus.valid,
    scannedAt := none, scannedBy := none }

/-- One ticket row as inserted by `createTicketsForExternalEvent`
(src/database.ts): `event_id` is left NULL and `external_event_id` is
set. -/
def mkExtTicket (orderId : Nat) (ext : String) (i : Nat) (tok : Nat → String) : Ticket :=
  { orderId := orderId, eventId := none, externalEventId := some ext,
    qrToken := tok i, status := TicketStatus.valid,
    scannedAt := none, scannedBy := none }

/-- The insert loop of `createTickets` / `createTicketsForExternalEvent`.
Each iteration issues one `INSERT` through `db.query`, which acquires its
own pooled connection and autocommits, so rows inserted before an
exception persist.  `failAt = some i` injects a thrown error (e.g. a
connection failure) at loop index `i`; the `Except.error` value carries
the database state at that moment.  `mk` builds the row for index `i`. -/
def insertTicketsLoop (mk : Nat → Ticket) (failAt : Option Nat) :
    Nat → Nat → DB → List Ticket → Except DB (DB × List Ticket)
  | _, 0, db, acc => Except.ok (db, acc.reverse)
  | i, r + 1, db, acc =>
    if failAt = some i then Except.error db
    else
      let t := mk i
      insertTicketsLoop mk failAt (i + 1) r
        { db with tickets := db.tickets ++ [t] } (t :: acc)

/-- `createTickets(orderId, eventId, quantity, holderInfo)` from
src/database.ts: inserts `quantity` rows one by one, with no enclosing
transaction. -/
def createTickets (db : DB) (orderId eventId quantity : Nat) (tok : Nat → String)
    (failAt : Option Nat) : Except DB (DB × List Ticket) :=
  insertTicketsLoop (fun i => mkTicket orderId eventId i tok) failAt 0 quantity db []

/-- `createTicketsForExternalEvent(orderId, externalEventId, quantity,
holderInfo)` from src/database.ts: same loop, `event_id` NULL. -/
def createTicketsForExternalEvent (db : DB) (orderId : Nat) (ext : String)
    (quantity : Nat) (tok : Nat → String) (failAt : Option Nat) :
    Except DB (DB × List Ticket) :=
  insertTicketsLoop (fun i => mkExtTicket orderId ext i tok) failAt 0 quantity db []

/-- `handlePaymentSucceeded` from routes/webhooks.ts: set the order
matching the payment intent id to `'completed'` (unconditional update),
then, when the order still has no tickets, generate `order.quantity`
tickets; for an internal event additionally increment the event's
`tickets_sold` by `order.quantity`.  An exception thrown during ticket
creation is caught by the handler's outer try/catch, leaving the rows
inserted so far in place (modelled by returning the `Except.error`
state). -/
def handlePaymentSucceeded (tok : Nat → String) (failAt : Option Nat)
    (db : DB) (pid : String) : DB :=
  match updateOrderStatus db pid OrderStatus.completed with
  | (db1, none) => db1
  | (db1, some order) =>
    if countTicketsFor db1.tickets order.id > 0 then db1
    else
      match order.eventId with
      | some eid =>
        match createTickets db1 order.id eid order.quantity tok failAt with
        | Except.error dbE => dbE
        | Except.ok (db2, _) =>
          { db2 with events := bumpEvents db2.events eid order.quantity }
      | none =>
        match order.externalEventId with
        | some ext =>
          match createTicketsForExternalEvent db1 order.id ext order.quantity tok failAt with
          | Except.error dbE => dbE
          | Except.ok (db2, _) => db2
        | none => db1

/-- `handlePaymentFailed` from routes/webhooks.ts: a single call to
`updateOrderStatus(paymentIntentId, 'failed')`; the update carries no
condition on the current status. -/
def handlePaymentFailed (db : DB) (pid : String) : DB :=
  (updateOrderStatus db pid OrderStatus.failed).1

/-- Errors surfaced by the reservation transaction: the
`ApiError(400, 'Not enough tickets available')` thrown on the capacity
check, and the crash when the locked `SELECT` returns no row. -/
inductive ReserveError
  | eventNotFound
  | capacityExceeded
deriving DecidableEq

/-- The order row inserted by the reservation transaction:
`INSERT INTO orders (...) VALUES (..., 'pending')`. -/
def mkPendingOrder (oid eid q : Nat) (pid : String) : Order :=
  { id := oid, eventId := some eid, externalEventId := none,
    quantity := q, paymentIntentId := pid, status := OrderStatus.pending }

/-- The transactional reservation block of `paymentRoutes.post('/intent')`
(src/routes/tickets.ts, `BEGIN` ... `COMMIT`): lock and read the event
row, fail with the capacity error when `tickets_sold + quantity >
capacity` (rollback: no state change), otherwise insert the pending
order and increment `tickets_sold`, atomically.  The `FOR UPDATE` row
lock serialises concurrent executions of this block for the same event,
which is why the whole block is one atomic step of the model. -/
def reserve (db : DB) (eid q oid : Nat) (pid : String) : Except ReserveError DB :=
  match findEventById db.events eid with
  | none => Except.error ReserveError.eventNotFound
  | some ev =>
    if ev.ticketsSold + q > ev.capacity then Except.error ReserveError.capacityExceeded
    else Except.ok { db with
      orders := db.orders ++ [mkPendingOrder oid eid q pid],
      events := bumpEvents db.events eid q }

/-- First ticket row matching a qr token (`RETURNING *`, first row of
the `UPDATE ... WHERE qr_token = $3`). -/
def findTicketByToken : List Ticket → String → Option Ticket
  | [], _ => none
  | t :: rest, tk => if t.qrToken = tk then some t else findTicketByToken rest tk

/-- The row assignments of the `UPDATE` in `updateTicketStatus`
(src/database.ts): `SET status = $1, scanned_at = CASE WHEN $1 = 'used'
THEN CURRENT_TIMESTAMP ELSE scanned_at END, scanned_by_user_id = $2`. -/
def appliedTicketUpdate (t : Ticket) (st : TicketStatus) (scanner : Option Nat) (now : Int) :
    Ticket :=
  { t with status := st,
           scannedAt := if st = TicketStatus.used then some now else t.scannedAt,
           scannedBy := scanner }

/-- Effect of the `UPDATE` in `updateTicketStatus` over the table:
`... WHERE qr_token = $3`.  The `WHERE` clause names only the token —
there is no condition on the current status. -/
def updateTicketsByToken : List Ticket → String → TicketStatus → Option Nat → Int → List Ticket
  | [], _, _, _, _ => []
  | t :: rest, tk, st, scanner, now =>
    (if t.qrToken = tk then appliedTicketUpdate t st scanner now else t)
      :: updateTicketsByToken rest tk st scanner now

/-- `updateTicketStatus` from src/database.ts: the unconditional update
plus `RETURNING *` (first updated row). -/
def updateTicketStatus (db : DB) (tk : String) (st : TicketStatus)
    (scanner : Option Nat) (now : Int) : DB × Option Ticket :=
  let ts := updateTicketsByToken db.tickets tk st scanner now
  ({ db with tickets := ts }, findTicketByToken ts tk)

/-- `findTicketByQRToken` from src/database.ts:
`SELECT t.*, e.* FROM tickets t JOIN events e ON t.event_id = e.id WHERE
t.qr_token = $1`.  The INNER JOIN drops any matching ticket whose
`event_id` is NULL or names no existing event row. -/
def findTicketJoin : List Ticket → List EventRow → String → Option (Ticket × EventRow)
  | [], _, _ => none
  | t :: rest, events, tk =>
    if t.qrToken = tk then
      match t.eventId with
      | some eid =>
        match findEventById events eid with
        | some e => some (t, e)
        | none => findTicketJoin rest events tk
      | none => findTicketJoin rest events tk
    else findTicketJoin rest events tk

/-- Scan-route failures of `ticketRoutes.post('/scan')`
(src/routes/tickets.ts), in the order the route checks them. -/
inductive ScanError
  | notFound
  | eventNotFound
  | forbidden
  | alreadyUsed
  | invalidStatus
  | tooEarly
  | tooLate
  | updateFailed
deriving DecidableEq

/-- `ticketRoutes.post('/scan')` from src/routes/tickets.ts: look the
ticket up by qr token (joined with its event), refetch the event, verify
the scanner is the event host, reject `used` / non-`valid` tickets,
enforce the entry window (reject strictly before `starts_at` − 1h and
strictly after `starts_at` + 30m, in milliseconds), then mark the ticket
used via `updateTicketStatus`. -/
def scanTicket (db : DB) (tk : String) (scannerEmail : String) (now : Int) :
    Except ScanError (DB × Ticket) :=
  match findTicketJoin db.tickets db.events tk with
  | none => Except.error ScanError.notFound
  | some (t, ev) =>
    match findEventById db.events ev.id with
    | none => Except.error ScanError.eventNotFound
    | some event =>
      match findUserByEmail db.users scannerEmail with
      | none => Except.error ScanError.forbidden
      | some scanner =>
        if scanner.id ≠ event.hostId then Except.error ScanError.forbidden
        else if t.status = TicketStatus.used then Except.error ScanError.alreadyUsed
        else if t.status ≠ TicketStatus.valid then Except.error ScanError.invalidStatus
        else if now < ev.startsAt - 3600000 then Except.error ScanError.tooEarly
        else if now > ev.startsAt + 1800000 then Except.error ScanError.tooLate
        else
          match updateTicketStatus db tk TicketStatus.used (some scanner.id) now with
          | (db1, some t1) => Except.ok (db1, t1)
          | (_, none) => Except.error ScanError.updateFailed

/-- Outcome of `ticketRoutes.get('/verify')` (src/routes/tickets.ts):
not found, already used, cancelled/refunded, or valid with the
entry-window accessibility flag. -/
inductive VerifyOutcome
  | notFound
  | usedAlready
  | invalidTicket
  | validTicket (accessible : Bool)
deriving DecidableEq

/-- `ticketRoutes.get('/verify')` from src/routes/tickets.ts: read-only
lookup through the same `findTicketByQRToken` join, classifying the
ticket and computing whether `now` lies in the entry window. -/
def verifyTicket (db : DB) (tk : String) (now : Int) : VerifyOutcome :=
  match findTicketJoin db.tickets db.events tk with
  | none => VerifyOutcome.notFound
  | some (t, ev) =>
    if t.status = TicketStatus.used then VerifyOutcome.usedAlready
    else if t.status = TicketStatus.cancelled ∨ t.status = TicketStatus.refunded then
      VerifyOutcome.invalidTicket
    else
      VerifyOutcome.validTicket
        (decide (ev.startsAt - 3600000 ≤ now) && decide (now ≤ ev.startsAt + 1800000))

/-- Stored OTP record (`OTPData` in src/services/notificationService.ts):
the code, an expiry timestamp in milliseconds, and the attempt counter. -/
structure OTPData where
  code : String
  expiresAt : Int
  attempts : Nat
deriving DecidableEq

/-- Result of `OTPService.verifyOTP`: a boolean, or the thrown
`ApiError(429, 'Too Many Requests', ...)`. -/
inductive OTPOutcome
  | result (b : Bool)
  | tooManyAttempts
deriving DecidableEq

/-- `MAX_ATTEMPTS` from `OTPService`. -/
def maxOtpAttempts : Nat := 3

/-- The fold of `constantTimeCompare`: `result |= a.charCodeAt(i) ^
b.charCodeAt(i)` over the character pairs. -/
def ctcFold : List Char → List Char → Nat → Nat
  | [], _, r => r
  | _, [], r => r
  | a :: as, b :: bs, r => ctcFold as bs (r ||| (a.toNat ^^^ b.toNat))

/-- `constantTimeCompare` from `OTPService`: false on a length mismatch,
otherwise the or-of-xors over all character pairs must be zero. -/
def constantTimeCompare (a b : String) : Bool :=
  if a.length = b.length then ctcFold a.toList b.toList 0 = 0 else false

/-- `OTPService.verifyOTP` for one identifier, with the Redis entry for
that identifier as explicit state.  Mirrors the source order of checks:
missing record → false; expired (`now` strictly past `expiresAt`) →
delete, false; attempts at the ceiling → delete, throw TooManyAttempts;
matching code → delete, true; otherwise increment the attempt counter
and re-persist it only when the remaining TTL in whole seconds is
positive (`Math.floor((expiresAt - now)/1000) > 0`, i.e. `expiresAt -
now ≥ 1000`; otherwise the store keeps the old record until Redis
expires it). -/
def verifyOTP (store : Option OTPData) (input : String) (now : Int) :
    OTPOutcome × Option OTPData :=
  match store with
  | none => (OTPOutcome.result false, none)
  | some d =>
    if d.expiresAt < now then (OTPOutcome.result false, none)
    else if maxOtpAttempts ≤ d.attempts then (OTPOutcome.tooManyAttempts, none)
    else if constantTimeCompare input d.code then (OTPOutcome.result true, none)
    else if 1000 ≤ d.expiresAt - now then
      (OTPOutcome.result false, some { d with attempts := d.attempts + 1 })
    else (OTPOutcome.result false, some d)

/-- Atomic operations of the ticketing core against one event.  Each
reservation is one action because its body runs under the event row's
`FOR UPDATE` lock; the webhook handlers' individual statements each
autocommit, and `failAt` injects a crash inside ticket creation, so
at-least-once, duplicated and partially-failed webhook deliveries are
all expressible as action sequences. -/
inductive CoreAction
  | reserveReq (oid : Nat) (pid : String) (q : Nat)
  | paymentSucceeded (pid : String) (failAt : Option Nat)
  | paymentFailed (pid : String)

/-- One step of the core: a reservation attempt (a rejected reservation
leaves the state unchanged — the transaction rolled back), a
payment-succeeded webhook delivery, or a payment-failed delivery. -/
def coreStep (eid : Nat) (tok : Nat → String) (db : DB) : CoreAction → DB
  | CoreAction.reserveReq oid pid q =>
    match reserve db eid q oid pid with
    | Except.ok db1 => db1
    | Except.error _ => db
  | CoreAction.paymentSucceeded pid failAt => handlePaymentSucceeded tok failAt db pid
  | CoreAction.paymentFailed pid => handlePaymentFailed db pid

/-- Run a sequence of core actions. -/
def runCore (eid : Nat) (tok : Nat → String) (db : DB) (acts : List CoreAction) : DB :=
  acts.foldl (coreStep eid tok) db

/-- A freshly created event: `tickets_sold` defaults to 0 (schema.sql),
no orders, no tickets. -/
def initDB (eid cap hostId : Nat) (startsAt : Int) : DB :=
  { events := [{ id := eid, hostId := hostId, startsAt := startsAt,
                 capacity := cap, ticketsSold := 0, status := EventStatus.active }],
    orders := [], tickets := [], users := [] }

/-- Sum of the quantities of all order rows. -/
def orderQuantitySum (db : DB) : Nat :=
  (db.orders.map Order.quantity).sum

/-- Sum of the quantities of the orders currently in `'completed'`
status. -/
def completedQuantitySum (db : DB) : Nat :=
  ((db.orders.filter (fun o => o.status = OrderStatus.completed)).map Order.quantity).sum

/-- `tickets_sold` of the event row with the given id (0 if absent). -/
def soldOf (db : DB) (eid : Nat) : Nat :=
  match findEventById db.events eid with
  | some ev => ev.ticketsSold
  | none => 0

/-- Iterated sequential delivery of the same `payment_intent.succeeded`
event (`failAt = none`: every delivery completes without a crash). -/
def deliverSucceededN (tok : Nat → String) (pid : String) : Nat → DB → DB
  | 0, db => db
  | n + 1, db => deliverSucceededN tok pid n (handlePaymentSucceeded tok none db pid)

/-- Capacity invariant for one event: the event row is present with the
given capacity, and the quantities of all orders ever created sum to at
most `tickets_sold` and at most the capacity.  (Orders are never deleted
and an order's quantity is never changed, so every order that ever
reaches `'completed'` stays counted in `orderQuantitySum`.) -/
def CapInv (eid cap : Nat) (db : DB) : Prop :=
  ∃ ev, findEventById db.events eid = some ev ∧ ev.capacity = cap ∧
    orderQuantitySum db ≤ ev.ticketsSold ∧ orderQuantitySum db ≤ cap

/-! Concrete sample data used for evaluating the model on closed inputs. -/

/-- Deterministic token generator for concrete runs (in the source each
qr token is 32 random bytes; only freshness matters to the model). -/
def sampleTok : Nat → String := fun i => "tk" ++ toString i

/-- Sample event row: id 1, host 7, capacity 5, 3 already sold, active,
starting at millisecond timestamp 5000000. -/
def sampleEvent : EventRow :=
  { id := 1, hostId := 7, startsAt := 5000000, capacity := 5,
    ticketsSold := 3, status := EventStatus.active }

/-- Sample database holding only `sampleEvent`. -/
def sampleDB : DB := { events := [sampleEvent], orders := [], tickets := [], users := [] }

/-- A pending order of quantity 2 for the sample event. -/
def sampleOrder : Order :=
  { id := 3, eventId := some 1, externalEventId := none, quantity := 2,
    paymentIntentId := "pi2", status := OrderStatus.pending }

/-- Database state right after reserving `sampleOrder` (no tickets yet). -/
def sampleOrderDB : DB :=
  { events := [sampleEvent], orders := [sampleOrder], tickets := [], users := [] }

/-- A pending order of quantity 3 used for the partial-failure run. -/
def crashOrder : Order :=
  { id := 5, eventId := some 1, externalEventId := none, quantity := 3,
    paymentIntentId := "pi3", status := OrderStatus.pending }

/-- Pre-state for the partial-failure run: `crashOrder` reserved, no
tickets issued yet. -/
def crashDB : DB :=
  { events := [sampleEvent], orders := [crashOrder], tickets := [], users := [] }

/-- An order that already completed (payment succeeded, tickets issued). -/
def lateFailOrder : Order :=
  { id := 4, eventId := some 1, externalEventId := none, quantity := 2,
    paymentIntentId := "pi4", status := OrderStatus.completed }

/-- Database holding the completed `lateFailOrder`. -/
def lateFailDB : DB :=
  { events := [sampleEvent], orders := [lateFailOrder], tickets := [], users := [] }

/-- A cancelled ticket, target of the direct status-update evaluation. -/
def cancelledTicket : Ticket :=
  { orderId := 2, eventId := some 1, externalEventId := none, qrToken := "qt7",
    status := TicketStatus.cancelled, scannedAt := none, scannedBy := none }

/-- Database holding only `cancelledTicket`. -/
def cancelledDB : DB :=
  { events := [sampleEvent], orders := [], tickets := [cancelledTicket], users := [] }

/-- A valid ticket for the sample event, used by the scan fixtures. -/
def scanTicketRow : Ticket :=
  { orderId := 2, eventId := some 1, externalEventId := none, qrToken := "qt8",
    status := TicketStatus.valid, scannedAt := none, scannedBy := none }

/-- The host user of the sample event. -/
def hostUser : User := { id := 7, email := "host@example.com" }

/-- Scan fixture: the sample event, its host, and one valid ticket. -/
def scanFixtureDB : DB :=
  { events := [sampleEvent], orders := [], tickets := [scanTicketRow], users := [hostUser] }

/-- The scan fixture after a successful scan at millisecond 1400000
(exactly one hour before the sample event starts). -/
def scannedFixtureDB : DB :=
  { scanFixtureDB with
      tickets := updateTicketsByToken scanFixtureDB.tickets "qt8" TicketStatus.used (some 7) 1400000 }

/-- A ticket created for an external event: `event_id` NULL,
`external_event_id` set. -/
def externalTicket : Ticket :=
  { orderId := 6, eventId := none, externalEventId := some "ext-uuid", qrToken := "qt9",
    status := TicketStatus.valid, scannedAt := none, scannedBy := none }

/-- Database holding `externalTicket` alongside a normal event table. -/
def externalTicketDB : DB :=
  { events := [sampleEvent], orders := [], tickets := [externalTicket], users := [hostUser] }

/-- Sample OTP record: code "123456", expires at millisecond 600000, no
attempts yet. -/
def sampleOtp : OTPData := { code := "123456", expiresAt := 600000, attempts := 0 }

/-- The single event row of `initDB` with a given `tickets_sold` value
(used to name intermediate states of concrete runs). -/
def initEventRow (eid cap hostId : Nat) (startsAt : Int) (sold : Nat) : EventRow :=
  { id := eid, hostId := hostId, startsAt := startsAt, capacity := cap,
    ticketsSold := sold, status := EventStatus.active }

/-- State of a fresh event after one reservation of quantity `q`
committed: `tickets_sold` raised from 0, one pending order, no
tickets. -/
def midReservedDB (eid cap hostId : Nat) (startsAt : Int) (q oid : Nat) (pid : String) : DB :=
  { events := [initEventRow eid cap hostId startsAt (0 + q)],
    orders := [mkPendingOrder oid eid q pid], tickets := [], users := [] }

/-! Basic lemmas about the row-level operations. -/

theorem findEventById_eq_id :
    ∀ (l : List EventRow) (i : Nat) (e : EventRow),
      findEventById l i = some e → e.id = i := by
  intro l
  induction l with
  | nil => intro i e h; simp [findEventById] at h
  | cons a rest ih =>
    intro i e h
    by_cases hc : a.id = i
    · simp [findEventById, hc] at h
      rw [← h]; exact hc
    · simp [findEventById, hc] at h
      exact ih i e h

theorem bumpEvents_eq_map (eid q : Nat) :
    ∀ l : List EventRow,
      bumpEvents l eid q =
        l.map (fun e => if e.id = eid then { e with ticketsSold := e.ticketsSold + q } else e) := by
  intro l
  induction l with
  | nil => rfl
  | cons a rest ih => simp [bumpEvents, ih]

theorem findEventById_map (f : EventRow → EventRow) (hf : ∀ e, (f e).id = e.id) :
    ∀ (l : List EventRow) (i : Nat),
      findEventById (l.map f) i = (findEventById l i).map f := by
  intro l
  induction l with
  | nil => intro i; rfl
  | cons a rest ih =>
    intro i
    by_cases hi : a.id = i
    · simp [findEventById, hf, hi]
    · simp [findEventById, hf, hi, ih]

theorem findEventById_bump (eid q : Nat) (l : List EventRow) (i : Nat) :
    findEventById (bumpEvents l eid q) i =
      (findEventById l i).map
        (fun e => if e.id = eid then { e with ticketsSold := e.ticketsSold + q } else e) := by
  rw [bumpEvents_eq_map]
  exact findEventById_map _ (fun e => by by_cases hb : e.id = eid <;> simp [hb]) l i

theorem findOrderByPid_update (pid : String) (st : OrderStatus) :
    ∀ l : List Order,
      findOrderByPid (updateOrdersByPid l pid st) pid =
        (findOrderByPid l pid).map (fun o => { o with status := st }) := by
  intro l
  induction l with
  | nil => rfl
  | cons o rest ih =>
    by_cases hc : o.paymentIntentId = pid <;>
      simp [updateOrdersByPid, findOrderByPid, hc, ih]

theorem map_quantity_update (pid : String) (st : OrderStatus) :
    ∀ l : List Order,
      (updateOrdersByPid l pid st).map Order.quantity = l.map Order.quantity := by
  intro l
  induction l with
  | nil => rfl
  | cons o rest ih =>
    by_cases hc : o.paymentIntentId = pid <;> simp [updateOrdersByPid, hc, ih]

theorem countTicketsFor_append (oid : Nat) :
    ∀ l1 l2 : List Ticket,
      countTicketsFor (l1 ++ l2) oid = countTicketsFor l1 oid + countTicketsFor l2 oid := by
  intro l1 l2
  induction l1 with
  | nil => simp [countTicketsFor]
  | cons t rest ih => simp [countTicketsFor, ih]; omega

theorem countTicketsFor_all (oid : Nat) :
    ∀ l : List Ticket, (∀ t ∈ l, t.orderId = oid) → countTicketsFor l oid = l.length := by
  intro l
  induction l with
  | nil => intro _; rfl
  | cons t rest ih =>
    intro h
    have ht : t.orderId = oid := h t (by simp)
    have hrec := ih (fun u hu => h u (List.mem_cons_of_mem _ hu))
    simp only [countTicketsFor, ht, if_pos, List.length_cons, hrec]
    omega

/-- Frame lemma for the ticket-insert loop: whatever database state the
loop ends in (normal completion or a thrown error), the `events`,
`orders` and `users` tables are untouched and the `tickets` table has
only been extended with rows built by `mk`. -/
theorem insertTicketsLoop_frame (mk : Nat → Ticket) (failAt : Option Nat) :
    ∀ (r i : Nat) (db : DB) (acc : List Ticket) (d : DB),
      (insertTicketsLoop mk failAt i r db acc = Except.error d ∨
        ∃ ts, insertTicketsLoop mk failAt i r db acc = Except.ok (d, ts)) →
      d.events = db.events ∧ d.orders = db.orders ∧ d.users = db.users ∧
        ∃ new, d.tickets = db.tickets ++ new ∧ ∀ t ∈ new, ∃ j, t = mk j := by
  intro r
  induction r with
  | zero =>
    intro i db acc d h
    rcases h with h | ⟨ts, h⟩
    · simp [insertTicketsLoop] at h
    · simp [insertTicketsLoop] at h
      refine ⟨by rw [h.1], by rw [h.1], by rw [h.1], [], by simp [h.1], by simp⟩
  | succ r ih =>
    intro i db acc d h
    by_cases hf : failAt = some i
    · rcases h with h | ⟨ts, h⟩
      · simp [insertTicketsLoop, hf] at h
        refine ⟨by rw [h], by rw [h], by rw [h], [], by simp [h], by simp⟩
      · simp [insertTicketsLoop, hf] at h
    · have hrec := ih (i + 1)
        { db with tickets := db.tickets ++ [mk i] } (mk i :: acc) d
      have hres : insertTicketsLoop mk failAt i (r + 1) db acc =
          insertTicketsLoop mk failAt (i + 1) r
            { db with tickets := db.tickets ++ [mk i] } (mk i :: acc) := by
        simp [insertTicketsLoop, hf]
      rw [hres] at h
      obtain ⟨he, ho, hu, new, htk, hnew⟩ := hrec h
      refine ⟨he, ho, hu, mk i :: new, ?_, ?_⟩
      · simpa using htk
      · intro t htm
        rcases List.mem_cons.mp htm with htm | htm
        · exact ⟨i, htm⟩
        · exact hnew t htm

/-- When no failure is injected, the insert loop completes normally and
appends exactly `r` rows, one per loop index. -/
theorem insertTicketsLoop_ok (mk : Nat → Ticket) :
    ∀ (r i : Nat) (db : DB) (acc : List Ticket),
      ∃ d ts, insertTicketsLoop mk none i r db acc = Except.ok (d, ts) ∧
        d.events = db.events ∧ d.orders = db.orders ∧ d.users = db.users ∧
        ∃ new, d.tickets = db.tickets ++ new ∧ new.length = r ∧ ∀ t ∈ new, ∃ j, t = mk j := by
  intro r
  induction r with
  | zero =>
    intro i db acc
    exact ⟨db, acc.reverse, rfl, rfl, rfl, rfl, [], by simp, rfl, by simp⟩
  | succ r ih =>
    intro i db acc
    obtain ⟨d, ts, hrun, he, ho, hu, new, htk, hlen, hnew⟩ :=
      ih (i + 1) { db with tickets := db.tickets ++ [mk i] } (mk i :: acc)
    refine ⟨d, ts, by simpa [insertTicketsLoop] using hrun, he, ho, hu,
      mk i :: new, by simpa using htk, by simp [hlen], ?_⟩
    intro t htm
    rcases List.mem_cons.mp htm with htm | htm
    · exact ⟨i, htm⟩
    · exact hnew t htm

/-! The per-event capacity invariant and its preservation. -/

theorem capInv_reserve (eid cap q oid : Nat) (pid : String) (db : DB)
    (h : CapInv eid cap db) :
    CapInv eid cap (match reserve db eid q oid pid with
      | Except.ok db1 => db1
      | Except.error _ => db) := by
  obtain ⟨ev, hfind, hcap, hsold, hle⟩ := h
  by_cases hover : ev.ticketsSold + q > ev.capacity
  · simp [reserve, hfind, hover]
    exact ⟨ev, hfind, hcap, hsold, hle⟩
  · simp [reserve, hfind, hover]
    refine ⟨{ ev with ticketsSold := ev.ticketsSold + q }, ?_, hcap, ?_, ?_⟩
    · rw [findEventById_bump]
      simp [hfind, findEventById_eq_id db.events eid ev hfind]
    · simp only [orderQuantitySum] at hsold ⊢
      simp [mkPendingOrder]
      omega
    · simp only [orderQuantitySum] at hsold hle ⊢
      simp [mkPendingOrder]
      omega

theorem capInv_paymentSucceeded (eid cap : Nat) (tok : Nat → String)
    (failAt : Option Nat) (pid : String) (db : DB) (h : CapInv eid cap db) :
    CapInv eid cap (handlePaymentSucceeded tok failAt db pid) := by
  obtain ⟨ev, hfind, hcap, hsold, hle⟩ := h
  have hsum1 : orderQuantitySum ((updateOrderStatus db pid OrderStatus.completed).1) =
      orderQuantitySum db := by
    simp [updateOrderStatus, orderQuantitySum, map_quantity_update]
  have hev1 : findEventById ((updateOrderStatus db pid OrderStatus.completed).1).events eid =
      some ev := by
    simpa [updateOrderStatus] using hfind
  have hinv1 : CapInv eid cap ((updateOrderStatus db pid OrderStatus.completed).1) :=
    ⟨ev, hev1, hcap, by rw [hsum1]; exact hsold, by rw [hsum1]; exact hle⟩
  unfold handlePaymentSucceeded
  cases hupd : updateOrderStatus db pid OrderStatus.completed with
  | mk db1 o? =>
    have hinv1' : CapInv eid cap db1 := by rw [hupd] at hinv1; exact hinv1
    cases o? with
    | none => exact hinv1'
    | some order =>
      obtain ⟨ev1, hfind1, hcap1, hsold1, hle1⟩ := hinv1'
      by_cases hcount : countTicketsFor db1.tickets order.id > 0
      · simp only [hcount, if_true, gt_iff_lt]
        exact ⟨ev1, hfind1, hcap1, hsold1, hle1⟩
      · simp only [hcount, if_false]
        cases heid : order.eventId with
        | some eid2 =>
          dsimp only
          cases hct : createTickets db1 order.id eid2 order.quantity tok failAt with
          | error dbE =>
            obtain ⟨he, ho, hu2, hrest⟩ :=
              insertTicketsLoop_frame _ failAt order.quantity 0 db1 [] dbE (Or.inl hct)
            have hq : orderQuantitySum dbE = orderQuantitySum db1 := by
              simp [orderQuantitySum, ho]
            exact ⟨ev1, by rw [he]; exact hfind1, hcap1,
              by rw [hq]; exact hsold1, by rw [hq]; exact hle1⟩
          | ok res =>
            obtain ⟨db2, ts⟩ := res
            obtain ⟨he, ho, hu2, hrest⟩ :=
              insertTicketsLoop_frame _ failAt order.quantity 0 db1 [] db2
                (Or.inr ⟨ts, hct⟩)
            have hq : orderQuantitySum { db2 with
                events := bumpEvents db2.events eid2 order.quantity } =
                orderQuantitySum db1 := by simp [orderQuantitySum, ho]
            refine ⟨if ev1.id = eid2
                then { ev1 with ticketsSold := ev1.ticketsSold + order.quantity }
                else ev1, ?_, ?_, ?_, ?_⟩
            · show findEventById (bumpEvents db2.events eid2 order.quantity) eid = _
              rw [findEventById_bump, he, hfind1]
              simp
            · by_cases hb : ev1.id = eid2 <;> simp [hb, hcap1]
            · rw [hq]
              by_cases hb : ev1.id = eid2
              · simp [hb]; omega
              · simp [hb]; exact hsold1
            · rw [hq]
              by_cases hb : ev1.id = eid2 <;> simp [hb, hle1]
        | none =>
          dsimp only
          cases hext : order.externalEventId with
          | some ext =>
            dsimp only
            cases hct : createTicketsForExternalEvent db1 order.id ext order.quantity tok failAt with
            | error dbE =>
              obtain ⟨he, ho, hu2, hrest⟩ :=
                insertTicketsLoop_frame _ failAt order.quantity 0 db1 [] dbE (Or.inl hct)
              have hq : orderQuantitySum dbE = orderQuantitySum db1 := by
                simp [orderQuantitySum, ho]
              exact ⟨ev1, by rw [he]; exact hfind1, hcap1,
                by rw [hq]; exact hsold1, by rw [hq]; exact hle1⟩
            | ok res =>
              obtain ⟨db2, ts⟩ := res
              obtain ⟨he, ho, hu2, hrest⟩ :=
                insertTicketsLoop_frame _ failAt order.quantity 0 db1 [] db2
                  (Or.inr ⟨ts, hct⟩)
              have hq : orderQuantitySum db2 = orderQuantitySum db1 := by
                simp [orderQuantitySum, ho]
              exact ⟨ev1, by rw [he]; exact hfind1, hcap1,
                by rw [hq]; exact hsold1, by rw [hq]; exact hle1⟩
          | none => exact ⟨ev1, hfind1, hcap1, hsold1, hle1⟩

theorem capInv_paymentFailed (eid cap : Nat) (pid : String) (db : DB)
    (h : CapInv eid cap db) : CapInv eid cap (handlePaymentFailed db pid) := by
  obtain ⟨ev, hfind, hcap, hsold, hle⟩ := h
  have hsum : orderQuantitySum (handlePaymentFailed db pid) = orderQuantitySum db := by
    simp [handlePaymentFailed, updateOrderStatus, orderQuantitySum, map_quantity_update]
  refine ⟨ev, ?_, hcap, by rw [hsum]; exact hsold, by rw [hsum]; exact hle⟩
  simpa [handlePaymentFailed, updateOrderStatus] using hfind

theorem capInv_step (eid cap : Nat) (tok : Nat → String) (db : DB) (a : CoreAction)
    (h : CapInv eid cap db) : CapInv eid cap (coreStep eid tok db a) := by
  cases a with
  | reserveReq oid pid q => exact capInv_reserve eid cap q oid pid db h
  | paymentSucceeded pid failAt => exact capInv_paymentSucceeded eid cap tok failAt pid db h
  | paymentFailed pid => exact capInv_paymentFailed eid cap pid db h

theorem capInv_run (eid cap : Nat) (tok : Nat → String) :
    ∀ (acts : List CoreAction) (db : DB),
      CapInv eid cap db → CapInv eid cap (runCore eid tok db acts) := by
  intro acts
  induction acts with
  | nil => intro db h; exact h
  | cons a rest ih =>
    intro db h
    exact ih (coreStep eid tok db a) (capInv_step eid cap tok db a h)

theorem filter_quantity_sum_le (p : Order → Bool) :
    ∀ l : List Order,
      ((l.filter p).map Order.quantity).sum ≤ (l.map Order.quantity).sum := by
  intro l
  induction l with
  | nil => simp
  | cons o rest ih =>
    by_cases hc : p o <;> simp [hc] <;> omega

theorem completed_le_orderSum (db : DB) :
    completedQuantitySum db ≤ orderQuantitySum db :=
  filter_quantity_sum_le _ db.orders

/-- C1: for every event with capacity `cap` and every interleaving of
reservation calls, payment-success deliveries (including crashed ones)
and payment-failure deliveries, the quantities of all orders — in
particular of every order that ever reaches `'completed'` status; orders
are never deleted and their quantities never change — sum to at most
`cap`. -/
theorem reservation_capacity_never_exceeded (eid cap hostId : Nat) (startsAt : Int)
    (tok : Nat → String) (acts : List CoreAction) :
    completedQuantitySum (runCore eid tok (initDB eid cap hostId startsAt) acts) ≤ cap ∧
    orderQuantitySum (runCore eid tok (initDB eid cap hostId startsAt) acts) ≤ cap := by
  have hinit : CapInv eid cap (initDB eid cap hostId startsAt) := by
    simp [CapInv, initDB, findEventById, orderQuantitySum]
  obtain ⟨_, _, _, _, hle⟩ := capInv_run eid cap tok acts _ hinit
  exact ⟨Nat.le_trans (completed_le_orderSum _) hle, hle⟩

/-- C4: for a reservation call with `1 ≤ quantity ≤ 10` on an active
event, the transactional block fails with the capacity error when
`tickets_sold + quantity > capacity`, leaving the state unchanged (the
transaction rolls back before any write); otherwise it commits exactly
an order row in `'pending'` status together with a `tickets_sold`
increment of `quantity`, and writes nothing else. -/
theorem reserve_transactional_spec (tok : Nat → String) (db : DB) (eid q oid : Nat)
    (pid : String) (ev : EventRow)
    (hev : findEventById db.events eid = some ev)
    (hact : ev.status = EventStatus.active)
    (hq1 : 1 ≤ q) (hq10 : q ≤ 10) :
    (ev.ticketsSold + q > ev.capacity →
      reserve db eid q oid pid = Except.error ReserveError.capacityExceeded ∧
      coreStep eid tok db (CoreAction.reserveReq oid pid q) = db) ∧
    (ev.ticketsSold + q ≤ ev.capacity →
      ∃ db1, reserve db eid q oid pid = Except.ok db1 ∧
        db1.orders = db.orders ++ [mkPendingOrder oid eid q pid] ∧
        (mkPendingOrder oid eid q pid).status = OrderStatus.pending ∧
        findEventById db1.events eid = some { ev with ticketsSold := ev.ticketsSold + q } ∧
        db1.tickets = db.tickets ∧ db1.users = db.users) := by
  constructor
  · intro hover
    constructor
    · simp [reserve, hev, hover]
    · simp [coreStep, reserve, hev, hover]
  · intro hfits
    have hover : ¬ ev.ticketsSold + q > ev.capacity := by omega
    have hdb1 : reserve db eid q oid pid = Except.ok { db with
        orders := db.orders ++ [mkPendingOrder oid eid q pid],
        events := bumpEvents db.events eid q } := by
      simp [reserve, hev, hover]
    refine ⟨_, hdb1, rfl, rfl, ?_, rfl, rfl⟩
    rw [findEventById_bump]
    simp [hev, findEventById_eq_id db.events eid ev hev]

/-- Witness for `reserve_transactional_spec`: on `sampleEvent`
(capacity 5, 3 sold, active) a reservation of 3 exceeds capacity and is
rejected with the state untouched, while a reservation of 2 commits the
pending order and the increment. -/
theorem reserve_transactional_spec_witness :
    (reserve sampleDB 1 3 9 "pi9" = Except.error ReserveError.capacityExceeded ∧
      coreStep 1 sampleTok sampleDB (CoreAction.reserveReq 9 "pi9" 3) = sampleDB) ∧
    (∃ db1, reserve sampleDB 1 2 9 "pi9" = Except.ok db1 ∧
      db1.orders = sampleDB.orders ++ [mkPendingOrder 9 1 2 "pi9"] ∧
      (mkPendingOrder 9 1 2 "pi9").status = OrderStatus.pending ∧
      findEventById db1.events 1 = some { sampleEvent with ticketsSold := sampleEvent.ticketsSold + 2 } ∧
      db1.tickets = sampleDB.tickets ∧ db1.users = sampleDB.users) :=
  ⟨(reserve_transactional_spec sampleTok sampleDB 1 3 9 "pi9" sampleEvent
      (by decide) (by decide) (by decide) (by decide)).1 (by decide),
   (reserve_transactional_spec sampleTok sampleDB 1 2 9 "pi9" sampleEvent
      (by decide) (by decide) (by decide) (by decide)).2 (by decide)⟩

/-- A payment-success delivery for an order that already has tickets
leaves the ticket table untouched (the existing-ticket count check
skips creation) and only re-marks the order completed. -/
theorem handlePS_skip (tok : Nat → String) (db : DB) (pid : String) (o : Order)
    (hfind : findOrderByPid db.orders pid = some o)
    (hcount : 0 < countTicketsFor db.tickets o.id) :
    (handlePaymentSucceeded tok none db pid).tickets = db.tickets ∧
    findOrderByPid (handlePaymentSucceeded tok none db pid).orders pid =
      some { o with status := OrderStatus.completed } := by
  unfold handlePaymentSucceeded
  have hupd : updateOrderStatus db pid OrderStatus.completed =
      ({ db with orders := updateOrdersByPid db.orders pid OrderStatus.completed },
        some { o with status := OrderStatus.completed }) := by
    simp [updateOrderStatus, findOrderByPid_update, hfind]
  rw [hupd]
  dsimp only
  rw [if_pos hcount]
  exact ⟨rfl, by simp [findOrderByPid_update, hfind]⟩

/-- The first completed payment-success delivery for a ticketless order
creates exactly `order.quantity` tickets for it and marks it
completed. -/
theorem handlePS_first (tok : Nat → String) (db : DB) (pid : String) (o : Order)
    (hfind : findOrderByPid db.orders pid = some o)
    (hzero : countTicketsFor db.tickets o.id = 0)
    (href : o.eventId ≠ none ∨ o.externalEventId ≠ none) :
    countTicketsFor (handlePaymentSucceeded tok none db pid).tickets o.id = o.quantity ∧
    findOrderByPid (handlePaymentSucceeded tok none db pid).orders pid =
      some { o with status := OrderStatus.completed } := by
  unfold handlePaymentSucceeded
  have hupd : updateOrderStatus db pid OrderStatus.completed =
      ({ db with orders := updateOrdersByPid db.orders pid OrderStatus.completed },
        some { o with status := OrderStatus.completed }) := by
    simp [updateOrderStatus, findOrderByPid_update, hfind]
  rw [hupd]
  dsimp only
  have hc : ¬ countTicketsFor db.tickets o.id > 0 := by omega
  rw [if_neg hc]
  have hfind1 : findOrderByPid (updateOrdersByPid db.orders pid OrderStatus.completed) pid =
      some { o with status := OrderStatus.completed } := by
    simp [findOrderByPid_update, hfind]
  cases heid : o.eventId with
  | some eid =>
    dsimp only
    obtain ⟨d, ts, hok, hde, hdo, hdu, new, hdt, hlen, hnew⟩ :=
      insertTicketsLoop_ok (fun i => mkTicket o.id eid i tok) o.quantity 0
        { db with orders := updateOrdersByPid db.orders pid OrderStatus.completed } []
    rw [show createTickets { db with orders := updateOrdersByPid db.orders pid OrderStatus.completed }
        o.id eid o.quantity tok none =
        insertTicketsLoop (fun i => mkTicket o.id eid i tok) none 0 o.quantity
          { db with orders := updateOrdersByPid db.orders pid OrderStatus.completed } []
      from rfl, hok]
    dsimp only
    constructor
    · rw [hdt]
      dsimp only
      rw [countTicketsFor_append, hzero, countTicketsFor_all o.id new
        (fun t ht => by obtain ⟨j, hj⟩ := hnew t ht; rw [hj]; rfl), hlen]
      omega
    · dsimp only
      rw [hdo]
      dsimp only
      rw [heid] at hfind1
      exact hfind1
  | none =>
    dsimp only
    cases hext : o.externalEventId with
    | some ext =>
      dsimp only
      obtain ⟨d, ts, hok, hde, hdo, hdu, new, hdt, hlen, hnew⟩ :=
        insertTicketsLoop_ok (fun i => mkExtTicket o.id ext i tok) o.quantity 0
          { db with orders := updateOrdersByPid db.orders pid OrderStatus.completed } []
      rw [show createTicketsForExternalEvent
          { db with orders := updateOrdersByPid db.orders pid OrderStatus.completed }
          o.id ext o.quantity tok none =
          insertTicketsLoop (fun i => mkExtTicket o.id ext i tok) none 0 o.quantity
            { db with orders := updateOrdersByPid db.orders pid OrderStatus.completed } []
        from rfl, hok]
      dsimp only
      constructor
      · rw [hdt]
        dsimp only
        rw [countTicketsFor_append, hzero, countTicketsFor_all o.id new
          (fun t ht => by obtain ⟨j, hj⟩ := hnew t ht; rw [hj]; rfl), hlen]
        omega
      · dsimp only
        rw [hdo]
        dsimp only
        rw [heid, hext] at hfind1
        exact hfind1
    | none =>
      rcases href with h | h
      · exact absurd heid h
      · exact absurd hext h

/-- Redelivering payment-success events to an order whose ticket count
already equals its quantity keeps the count at exactly the quantity. -/
theorem deliverN_steady (tok : Nat → String) (pid : String) :
    ∀ (m : Nat) (db : DB) (o : Order),
      findOrderByPid db.orders pid = some o →
      countTicketsFor db.tickets o.id = o.quantity →
      (o.eventId ≠ none ∨ o.externalEventId ≠ none) →
      countTicketsFor (deliverSucceededN tok pid m db).tickets o.id = o.quantity := by
  intro m
  induction m with
  | zero => intro db o _ hcount _; exact hcount
  | succ m ih =>
    intro db o hfind hcount href
    show countTicketsFor
      (deliverSucceededN tok pid m (handlePaymentSucceeded tok none db pid)).tickets o.id =
      o.quantity
    by_cases hpos : 0 < countTicketsFor db.tickets o.id
    · obtain ⟨ht, hfind2⟩ := handlePS_skip tok db pid o hfind hpos
      exact ih (handlePaymentSucceeded tok none db pid) { o with status := OrderStatus.completed }
        hfind2 (by rw [ht]; exact hcount) href
    · have hzero : countTicketsFor db.tickets o.id = 0 := by omega
      obtain ⟨hcnt2, hfind2⟩ := handlePS_first tok db pid o hfind hzero href
      exact ih (handlePaymentSucceeded tok none db pid) { o with status := OrderStatus.completed }
        hfind2 hcnt2 href

/-- C2: delivering the same payment-confirmation event to a ticketless
order any number of times `n ≥ 1` yields exactly `order.quantity`
tickets — never more, for any number of deliveries — and a delivery for
an order that already has tickets creates no additional tickets. -/
theorem fulfillment_idempotent_ticket_count (tok : Nat → String) (db : DB)
    (pid : String) (o : Order)
    (hfind : findOrderByPid db.orders pid = some o)
    (hzero : countTicketsFor db.tickets o.id = 0)
    (href : o.eventId ≠ none ∨ o.externalEventId ≠ none) :
    (∀ n, 1 ≤ n →
      countTicketsFor (deliverSucceededN tok pid n db).tickets o.id = o.quantity) ∧
    (∀ m, countTicketsFor (deliverSucceededN tok pid m db).tickets o.id ≤ o.quantity) ∧
    (∀ (db2 : DB) (pid2 : String) (o2 : Order),
      findOrderByPid db2.orders pid2 = some o2 →
      0 < countTicketsFor db2.tickets o2.id →
      (handlePaymentSucceeded tok none db2 pid2).tickets = db2.tickets) := by
  refine ⟨?_, ?_, ?_⟩
  · intro n hn
    obtain ⟨k, rfl⟩ : ∃ k, n = k + 1 := ⟨n - 1, by omega⟩
    obtain ⟨hcnt1, hfind1⟩ := handlePS_first tok db pid o hfind hzero href
    exact deliverN_steady tok pid k (handlePaymentSucceeded tok none db pid)
      { o with status := OrderStatus.completed } hfind1 hcnt1 href
  · intro m
    cases m with
    | zero =>
      show countTicketsFor db.tickets o.id ≤ o.quantity
      rw [hzero]; exact Nat.zero_le _
    | succ k =>
      obtain ⟨hcnt1, hfind1⟩ := handlePS_first tok db pid o hfind hzero href
      exact le_of_eq (deliverN_steady tok pid k (handlePaymentSucceeded tok none db pid)
        { o with status := OrderStatus.completed } hfind1 hcnt1 href)
  · intro db2 pid2 o2 hfind2 hpos2
    exact (handlePS_skip tok db2 pid2 o2 hfind2 hpos2).1

/-- Witness for `fulfillment_idempotent_ticket_count`: two and then five
deliveries for the pending quantity-2 order both leave exactly two
tickets. -/
theorem fulfillment_idempotent_ticket_count_witness :
    countTicketsFor (deliverSucceededN sampleTok "pi2" 2 sampleOrderDB).tickets 3 = 2 ∧
    countTicketsFor (deliverSucceededN sampleTok "pi2" 5 sampleOrderDB).tickets 3 ≤ 2 :=
  ⟨(fulfillment_idempotent_ticket_count sampleTok sampleOrderDB "pi2" sampleOrder
      (by decide) (by decide) (by decide)).1 2 (by decide),
   (fulfillment_idempotent_ticket_count sampleTok sampleOrderDB "pi2" sampleOrder
      (by decide) (by decide) (by decide)).2.1 5⟩

/-- C3: evaluation at the failing input.  Processing the confirmation
for the quantity-3 order `crashOrder` with an exception thrown on the
second `INSERT` (loop index 1) leaves exactly one persisted ticket row:
each insert autocommits on its own pooled connection and `createTickets`
opens no transaction, so nothing is rolled back and the reachable
post-crash state violates `count(tickets where order_id=X) ∈ {0,
order.quantity}`. -/
theorem createTickets_partial_set_persists :
    countTicketsFor (handlePaymentSucceeded sampleTok (some 1) crashDB "pi3").tickets 5 = 1 ∧
    ¬(countTicketsFor (handlePaymentSucceeded sampleTok (some 1) crashDB "pi3").tickets 5 = 0 ∨
      countTicketsFor (handlePaymentSucceeded sampleTok (some 1) crashDB "pi3").tickets 5 =
        crashOrder.quantity) := by
  decide

/-- C5 counterexample: `lateFailOrder` is already `'completed'`, yet
delivering a `payment_intent.payment_failed` event for its payment
reference rewrites its status to `'failed'` — the handler's update
carries no condition on the current status, so the claim that a
completed order is never downgraded is false on the code. -/
theorem paymentFailed_downgrades_completed_cex :
    lateFailOrder.status = OrderStatus.completed ∧
    findOrderByPid (handlePaymentFailed lateFailDB "pi4").orders "pi4" =
      some { lateFailOrder with status := OrderStatus.failed } := by
  decide

/-- Membership version of the unconditional order-status update: every
order matching the payment reference is rewritten to the new status,
whatever its current status. -/
theorem mem_updateOrdersByPid (pid : String) (st : OrderStatus) :
    ∀ (l : List Order) (o : Order), o ∈ l → o.paymentIntentId = pid →
      { o with status := st } ∈ updateOrdersByPid l pid st := by
  intro l
  induction l with
  | nil => intro o h; cases h
  | cons a rest ih =>
    intro o h hp
    rcases List.mem_cons.mp h with h | h
    · subst h
      simp [updateOrdersByPid, hp]
    · exact List.mem_cons_of_mem _ (ih o h hp)

/-- C5 amended: `handlePaymentFailed` sets every order matching the
payment reference to `'failed'` regardless of its current status — in
particular a late failure notification does downgrade an
already-completed order. -/
theorem paymentFailed_unconditional_update (db : DB) (pid : String) (o : Order)
    (hmem : o ∈ db.orders) (hpid : o.paymentIntentId = pid) :
    { o with status := OrderStatus.failed } ∈ (handlePaymentFailed db pid).orders := by
  show { o with status := OrderStatus.failed } ∈
    updateOrdersByPid db.orders pid OrderStatus.failed
  exact mem_updateOrdersByPid pid OrderStatus.failed db.orders o hmem hpid

/-- Witness for `paymentFailed_unconditional_update` at the completed
`lateFailOrder`. -/
theorem paymentFailed_unconditional_update_witness :
    { lateFailOrder with status := OrderStatus.failed } ∈
      (handlePaymentFailed lateFailDB "pi4").orders :=
  paymentFailed_unconditional_update lateFailDB "pi4" lateFailOrder (by decide) (by decide)

/-- C6 counterexample: on a fresh capacity-10 event, reserving quantity
2 sets `tickets_sold` to 2, and the subsequent payment confirmation for
that order raises it again to 4 — the fulfillment handler runs its own
`UPDATE events SET tickets_sold = tickets_sold + quantity`, so the
fulfillment path does not leave `tickets_sold` unchanged and the field
grows by twice the quantity over the order's lifetime. -/
theorem tickets_sold_fulfillment_increment_cex :
    soldOf (runCore 1 sampleTok (initDB 1 10 7 0) [CoreAction.reserveReq 4 "pi6" 2]) 1 = 2 ∧
    soldOf (runCore 1 sampleTok (initDB 1 10 7 0)
      [CoreAction.reserveReq 4 "pi6" 2, CoreAction.paymentSucceeded "pi6" none]) 1 = 4 := by
  decide

/-- A first completed payment-success delivery for a ticketless
internal-event order rewrites the event table through the handler's own
`tickets_sold` increment. -/
theorem handlePS_bumps_sold (tok : Nat → String) (db : DB) (pid : String) (o : Order)
    (eid : Nat)
    (hfind : findOrderByPid db.orders pid = some o)
    (hzero : countTicketsFor db.tickets o.id = 0)
    (heid : o.eventId = some eid) :
    (handlePaymentSucceeded tok none db pid).events =
      bumpEvents db.events eid o.quantity := by
  unfold handlePaymentSucceeded
  have hupd : updateOrderStatus db pid OrderStatus.completed =
      ({ db with orders := updateOrdersByPid db.orders pid OrderStatus.completed },
        some { o with status := OrderStatus.completed }) := by
    simp [updateOrderStatus, findOrderByPid_update, hfind]
  rw [hupd]
  dsimp only
  have hc : ¬ countTicketsFor db.tickets o.id > 0 := by omega
  rw [if_neg hc]
  rw [show ({ o with status := OrderStatus.completed } : Order).eventId = some eid from heid]
  dsimp only
  obtain ⟨d, ts, hok, hde, hdo, hdu, new, hdt, hlen, hnew⟩ :=
    insertTicketsLoop_ok (fun i => mkTicket o.id eid i tok) o.quantity 0
      { db with orders := updateOrdersByPid db.orders pid OrderStatus.completed } []
  rw [show createTickets { db with orders := updateOrdersByPid db.orders pid OrderStatus.completed }
      o.id eid o.quantity tok none =
      insertTicketsLoop (fun i => mkTicket o.id eid i tok) none 0 o.quantity
        { db with orders := updateOrdersByPid db.orders pid OrderStatus.completed } []
    from rfl, hok]
  dsimp only
  rw [hde]

/-- C6 amended: starting from a fresh event, a reservation of quantity
`q ≤ cap` followed by its payment confirmation increments `tickets_sold`
twice — once in the reservation transaction and once more in the
fulfillment handler's own update — ending at `q + q` rather than `q`. -/
theorem tickets_sold_incremented_twice (eid cap hostId q oid : Nat) (startsAt : Int)
    (pid : String) (tok : Nat → String) (hq : q ≤ cap) :
    soldOf (runCore eid tok (initDB eid cap hostId startsAt)
      [CoreAction.reserveReq oid pid q, CoreAction.paymentSucceeded pid none]) eid = q + q := by
  have hno : ¬ cap < q := by omega
  have hstep1 : coreStep eid tok (initDB eid cap hostId startsAt)
      (CoreAction.reserveReq oid pid q) =
      midReservedDB eid cap hostId startsAt q oid pid := by
    simp [coreStep, reserve, initDB, findEventById, hno, bumpEvents,
      midReservedDB, initEventRow]
  show soldOf (coreStep eid tok (coreStep eid tok (initDB eid cap hostId startsAt)
    (CoreAction.reserveReq oid pid q)) (CoreAction.paymentSucceeded pid none)) eid = q + q
  rw [hstep1]
  show soldOf (handlePaymentSucceeded tok none
    (midReservedDB eid cap hostId startsAt q oid pid) pid) eid = q + q
  have hb := handlePS_bumps_sold tok (midReservedDB eid cap hostId startsAt q oid pid)
    pid (mkPendingOrder oid eid q pid) eid
    (by simp [midReservedDB, findOrderByPid, mkPendingOrder])
    (by simp [midReservedDB, countTicketsFor, mkPendingOrder])
    rfl
  unfold soldOf
  rw [hb, findEventById_bump]
  simp [midReservedDB, initEventRow, findEventById, mkPendingOrder]

/-- Witness for `tickets_sold_incremented_twice` with quantity 2 on a
capacity-10 event. -/
theorem tickets_sold_incremented_twice_witness :
    soldOf (runCore 1 sampleTok (initDB 1 10 7 0)
      [CoreAction.reserveReq 4 "pi6" 2, CoreAction.paymentSucceeded "pi6" none]) 1 = 2 + 2 :=
  tickets_sold_incremented_twice 1 10 7 2 4 0 "pi6" sampleTok (by decide)

/-- The ticket-status update keyed by token, seen through `RETURNING *`:
the first row matching the token comes back with the new status
applied — whatever its previous status was. -/
theorem findTicketByToken_update (tk : String) (st : TicketStatus)
    (scanner : Option Nat) (now : Int) :
    ∀ ts : List Ticket,
      findTicketByToken (updateTicketsByToken ts tk st scanner now) tk =
        (findTicketByToken ts tk).map (fun t => appliedTicketUpdate t st scanner now) := by
  intro ts
  induction ts with
  | nil => rfl
  | cons t rest ih =>
    by_cases hc : t.qrToken = tk <;>
      simp [updateTicketsByToken, findTicketByToken, appliedTicketUpdate, hc, ih]

/-- Membership version of the unconditional ticket update: every ticket
matching the token is rewritten to the new status, whatever its current
status. -/
theorem mem_updateTicketsByToken (tk : String) (st : TicketStatus)
    (scanner : Option Nat) (now : Int) :
    ∀ (l : List Ticket) (t : Ticket), t ∈ l → t.qrToken = tk →
      appliedTicketUpdate t st scanner now ∈ updateTicketsByToken l tk st scanner now := by
  intro l
  induction l with
  | nil => intro t h; cases h
  | cons a rest ih =>
    intro t h hp
    rcases List.mem_cons.mp h with h | h
    · subst h
      simp [updateTicketsByToken, hp]
    · exact List.mem_cons_of_mem _ (ih t h hp)

/-- C7 counterexample: `updateTicketStatus` applied to the cancelled
ticket `cancelledTicket` does perform the transition to `'used'` — the
`UPDATE` is keyed only on `qr_token` and carries no `WHERE
status='valid'` condition, so it is not the single conditional write the
claim describes. -/
theorem updateTicketStatus_unconditional_cex :
    cancelledTicket.status = TicketStatus.cancelled ∧
    (updateTicketStatus cancelledDB "qt7" TicketStatus.used (some 7) 0).2 =
      some (appliedTicketUpdate cancelledTicket TicketStatus.used (some 7) 0) ∧
    (appliedTicketUpdate cancelledTicket TicketStatus.used (some 7) 0).status =
      TicketStatus.used := by
  decide

/-- C7 amended: the scan route transitions a ticket to `'used'` only
when its current status is `'valid'` — but that guard lives in the route
code, not in the write: the underlying `updateTicketStatus` update is
unconditional on the current status, and applied directly to any ticket
matching the token (including a non-`'valid'` one) it still performs the
transition. -/
theorem scan_state_machine_amended :
    (∀ (db : DB) (tk email : String) (now : Int) (db1 : DB) (t1 : Ticket),
      scanTicket db tk email now = Except.ok (db1, t1) →
      ∃ t ev, findTicketJoin db.tickets db.events tk = some (t, ev) ∧
        t.status = TicketStatus.valid ∧ t1.status = TicketStatus.used) ∧
    (∀ (db : DB) (tk : String) (st : TicketStatus) (scanner : Option Nat) (now : Int)
      (t : Ticket), t ∈ db.tickets → t.qrToken = tk →
      appliedTicketUpdate t st scanner now ∈
        (updateTicketStatus db tk st scanner now).1.tickets) := by
  constructor
  · intro db tk email now db1 t1 hscan
    unfold scanTicket at hscan
    cases hjoin : findTicketJoin db.tickets db.events tk with
    | none => rw [hjoin] at hscan; cases hscan
    | some pr =>
      obtain ⟨t, ev⟩ := pr
      rw [hjoin] at hscan
      dsimp only at hscan
      cases hev : findEventById db.events ev.id with
      | none => rw [hev] at hscan; cases hscan
      | some event =>
        rw [hev] at hscan
        dsimp only at hscan
        cases huser : findUserByEmail db.users email with
        | none => rw [huser] at hscan; cases hscan
        | some scanner =>
          rw [huser] at hscan
          dsimp only at hscan
          by_cases hid : scanner.id ≠ event.hostId
          · rw [if_pos hid] at hscan; cases hscan
          · rw [if_neg hid] at hscan
            by_cases hused : t.status = TicketStatus.used
            · rw [if_pos hused] at hscan; cases hscan
            · rw [if_neg hused] at hscan
              by_cases hnv : t.status ≠ TicketStatus.valid
              · rw [if_pos hnv] at hscan; cases hscan
              · rw [if_neg hnv] at hscan
                push_neg at hnv
                refine ⟨t, ev, rfl, hnv, ?_⟩
                by_cases hearly : now < ev.startsAt - 3600000
                · rw [if_pos hearly] at hscan; cases hscan
                · rw [if_neg hearly] at hscan
                  by_cases hlate : now > ev.startsAt + 1800000
                  · rw [if_pos hlate] at hscan; cases hscan
                  · rw [if_neg hlate] at hscan
                    simp only [updateTicketStatus, findTicketByToken_update] at hscan
                    cases hbase : findTicketByToken db.tickets tk with
                    | none =>
                      rw [hbase] at hscan
                      simp at hscan
                    | some t0 =>
                      rw [hbase] at hscan
                      simp only [Option.map] at hscan
                      simp only [Except.ok.injEq, Prod.mk.injEq] at hscan
                      rw [← hscan.2]
                      rfl
  · intro db tk st scanner now t hmem hp
    show _ ∈ updateTicketsByToken db.tickets tk st scanner now
    exact mem_updateTicketsByToken tk st scanner now db.tickets t hmem hp

/-- Witness for `scan_state_machine_amended`: a successful concrete scan
of the valid fixture ticket came from `'valid'` and ends `'used'`, and
the raw update applied to the cancelled ticket still rewrites it. -/
theorem scan_state_machine_amended_witness :
    (∃ t ev, findTicketJoin scanFixtureDB.tickets scanFixtureDB.events "qt8" = some (t, ev) ∧
      t.status = TicketStatus.valid ∧
      (appliedTicketUpdate scanTicketRow TicketStatus.used (some 7) 1400000).status =
        TicketStatus.used) ∧
    appliedTicketUpdate cancelledTicket TicketStatus.used (some 7) 0 ∈
      (updateTicketStatus cancelledDB "qt7" TicketStatus.used (some 7) 0).1.tickets :=
  ⟨scan_state_machine_amended.1 scanFixtureDB "qt8" "host@example.com" 1400000
      scannedFixtureDB (appliedTicketUpdate scanTicketRow TicketStatus.used (some 7) 1400000)
      (by rfl),
   scan_state_machine_amended.2 cancelledDB "qt7" TicketStatus.used (some 7) 0
      cancelledTicket (by decide) (by decide)⟩

/-- Facts carried by a successful qr-token join: the returned event row
is exactly what refetching it by id yields, and the returned ticket is a
table row matching the token and referencing that event. -/
theorem findTicketJoin_event (tk : String) :
    ∀ (ts : List Ticket) (es : List EventRow) (t : Ticket) (ev : EventRow),
      findTicketJoin ts es tk = some (t, ev) →
      findEventById es ev.id = some ev ∧ t ∈ ts ∧ t.qrToken = tk ∧ t.eventId = some ev.id := by
  intro ts
  induction ts with
  | nil => intro es t ev h; simp [findTicketJoin] at h
  | cons a rest ih =>
    intro es t ev h
    by_cases hq : a.qrToken = tk
    · rw [show findTicketJoin (a :: rest) es tk =
          (if a.qrToken = tk then
            match a.eventId with
            | some eid =>
              match findEventById es eid with
              | some e => some (a, e)
              | none => findTicketJoin rest es tk
            | none => findTicketJoin rest es tk
          else findTicketJoin rest es tk) from rfl, if_pos hq] at h
      cases heid : a.eventId with
      | none =>
        rw [heid] at h
        obtain ⟨h1, h2, h3, h4⟩ := ih es t ev h
        exact ⟨h1, List.mem_cons_of_mem _ h2, h3, h4⟩
      | some eid =>
        rw [heid] at h
        dsimp only at h
        cases hfe : findEventById es eid with
        | none =>
          rw [hfe] at h
          obtain ⟨h1, h2, h3, h4⟩ := ih es t ev h
          exact ⟨h1, List.mem_cons_of_mem _ h2, h3, h4⟩
        | some e =>
          rw [hfe] at h
          simp only [Option.some.injEq, Prod.mk.injEq] at h
          obtain ⟨ht, he⟩ := h
          subst ht
          subst he
          have hid : e.id = eid := findEventById_eq_id es eid e hfe
          refine ⟨by rw [hid]; exact hfe, by simp, hq, by rw [hid]; exact heid⟩
    · rw [show findTicketJoin (a :: rest) es tk =
          (if a.qrToken = tk then
            match a.eventId with
            | some eid =>
              match findEventById es eid with
              | some e => some (a, e)
              | none => findTicketJoin rest es tk
            | none => findTicketJoin rest es tk
          else findTicketJoin rest es tk) from rfl, if_neg hq] at h
      obtain ⟨h1, h2, h3, h4⟩ := ih es t ev h
      exact ⟨h1, List.mem_cons_of_mem _ h2, h3, h4⟩

/-- A table containing some ticket with the token always yields a first
match for `RETURNING *`. -/
theorem findTicketByToken_mem (tk : String) :
    ∀ (ts : List Ticket) (t : Ticket), t ∈ ts → t.qrToken = tk →
      ∃ t0, findTicketByToken ts tk = some t0 := by
  intro ts
  induction ts with
  | nil => intro t h; cases h
  | cons a rest ih =>
    intro t h hq
    by_cases ha : a.qrToken = tk
    · exact ⟨a, by simp [findTicketByToken, ha]⟩
    · rcases List.mem_cons.mp h with h | h
      · subst h; exact absurd hq ha
      · obtain ⟨t0, h0⟩ := ih t h hq
        exact ⟨t0, by simp [findTicketByToken, ha, h0]⟩

/-- C8: with the ticket valid and the scanner authorized as the event
host, scanning strictly before `starts_at` − 1h fails with the too-early
error, scanning at exactly `starts_at` − 1h succeeds, and scanning
strictly after `starts_at` + 30m fails with the too-late error (times in
milliseconds, as compared by JavaScript `Date`). -/
theorem scan_entry_window_boundaries (db : DB) (tk email : String) (now : Int)
    (t : Ticket) (ev : EventRow) (u : User)
    (hjoin : findTicketJoin db.tickets db.events tk = some (t, ev))
    (hu : findUserByEmail db.users email = some u)
    (hhost : u.id = ev.hostId)
    (hvalid : t.status = TicketStatus.valid) :
    (now < ev.startsAt - 3600000 →
      scanTicket db tk email now = Except.error ScanError.tooEarly) ∧
    (now = ev.startsAt - 3600000 →
      ∃ db1 t1, scanTicket db tk email now = Except.ok (db1, t1)) ∧
    (now > ev.startsAt + 1800000 →
      scanTicket db tk email now = Except.error ScanError.tooLate) := by
  obtain ⟨hev, hmem, htok, _⟩ := findTicketJoin_event tk db.tickets db.events t ev hjoin
  have hused : ¬ t.status = TicketStatus.used := by rw [hvalid]; simp
  have hnv : ¬ t.status ≠ TicketStatus.valid := by rw [hvalid]; simp
  have hid : ¬ u.id ≠ ev.hostId := by rw [hhost]; simp
  have hpre : ∀ w : Int,
      scanTicket db tk email w =
      (if w < ev.startsAt - 3600000 then Except.error ScanError.tooEarly
       else if w > ev.startsAt + 1800000 then Except.error ScanError.tooLate
       else match updateTicketStatus db tk TicketStatus.used (some u.id) w with
         | (db1, some t1) => Except.ok (db1, t1)
         | (_, none) => Except.error ScanError.updateFailed) := by
    intro w
    unfold scanTicket
    rw [hjoin]
    dsimp only
    rw [hev]
    dsimp only
    rw [hu]
    dsimp only
    rw [if_neg hid, if_neg hused, if_neg hnv]
  refine ⟨?_, ?_, ?_⟩
  · intro hearly
    rw [hpre now, if_pos hearly]
  · intro heq
    have hearly : ¬ now < ev.startsAt - 3600000 := by omega
    have hlate : ¬ now > ev.startsAt + 1800000 := by omega
    rw [hpre now, if_neg hearly, if_neg hlate]
    obtain ⟨t0, h0⟩ := findTicketByToken_mem tk db.tickets t hmem htok
    rw [show updateTicketStatus db tk TicketStatus.used (some u.id) now =
        ({ db with tickets := updateTicketsByToken db.tickets tk TicketStatus.used (some u.id) now },
          findTicketByToken (updateTicketsByToken db.tickets tk TicketStatus.used (some u.id) now) tk) from rfl]
    rw [findTicketByToken_update, h0]
    exact ⟨_, _, rfl⟩
  · intro hlate
    have hearly : ¬ now < ev.startsAt - 3600000 := by omega
    rw [hpre now, if_neg hearly, if_pos hlate]

/-- Witness for `scan_entry_window_boundaries` on the scan fixture
(event starts at 5000000): scanning at 1399999 is too early, at exactly
1400000 succeeds, and at 6800001 is too late. -/
theorem scan_entry_window_boundaries_witness :
    scanTicket scanFixtureDB "qt8" "host@example.com" 1399999 =
      Except.error ScanError.tooEarly ∧
    (∃ db1 t1, scanTicket scanFixtureDB "qt8" "host@example.com" 1400000 =
      Except.ok (db1, t1)) ∧
    scanTicket scanFixtureDB "qt8" "host@example.com" 6800001 =
      Except.error ScanError.tooLate :=
  ⟨(scan_entry_window_boundaries scanFixtureDB "qt8" "host@example.com" 1399999
      scanTicketRow sampleEvent hostUser (by decide) (by decide) (by decide) (by decide)).1
      (by decide),
   (scan_entry_window_boundaries scanFixtureDB "qt8" "host@example.com" 1400000
      scanTicketRow sampleEvent hostUser (by decide) (by decide) (by decide) (by decide)).2.1
      (by decide),
   (scan_entry_window_boundaries scanFixtureDB "qt8" "host@example.com" 6800001
      scanTicketRow sampleEvent hostUser (by decide) (by decide) (by decide) (by decide)).2.2
      (by decide)⟩

/-- The qr-token lookup yields nothing when every ticket matching the
token has a NULL `event_id`: the INNER JOIN on `t.event_id = e.id`
discards such rows. -/
theorem findTicketJoin_none_of_external (tk : String) (es : List EventRow) :
    ∀ ts : List Ticket, (∀ u ∈ ts, u.qrToken = tk → u.eventId = none) →
      findTicketJoin ts es tk = none := by
  intro ts
  induction ts with
  | nil => intro _; rfl
  | cons a rest ih =>
    intro h
    have hrest := ih (fun u hu hq => h u (List.mem_cons_of_mem _ hu) hq)
    by_cases hq : a.qrToken = tk
    · have hnone : a.eventId = none := h a (by simp) hq
      rw [show findTicketJoin (a :: rest) es tk =
          (if a.qrToken = tk then
            match a.eventId with
            | some eid =>
              match findEventById es eid with
              | some e => some (a, e)
              | none => findTicketJoin rest es tk
            | none => findTicketJoin rest es tk
          else findTicketJoin rest es tk) from rfl, if_pos hq, hnone]
      exact hrest
    · rw [show findTicketJoin (a :: rest) es tk =
          (if a.qrToken = tk then
            match a.eventId with
            | some eid =>
              match findEventById es eid with
              | some e => some (a, e)
              | none => findTicketJoin rest es tk
            | none => findTicketJoin rest es tk
          else findTicketJoin rest es tk) from rfl, if_neg hq]
      exact hrest

/-- C10: a ticket stored for an external event (`event_id` NULL,
`external_event_id` set) — as `createTicketsForExternalEvent` writes it,
while `qr_token` is unique — is invisible to the shared lookup, so both
the read-only verify route and the scan route report it not found, even
though the row exists. -/
theorem external_ticket_not_found (db : DB) (t : Ticket) (now : Int) (email : String)
    (hmem : t ∈ db.tickets)
    (hext : t.eventId = none)
    (hxext : t.externalEventId ≠ none)
    (huniq : ∀ u ∈ db.tickets, u.qrToken = t.qrToken → u.eventId = none) :
    findTicketJoin db.tickets db.events t.qrToken = none ∧
    verifyTicket db t.qrToken now = VerifyOutcome.notFound ∧
    scanTicket db t.qrToken email now = Except.error ScanError.notFound := by
  have hjoin : findTicketJoin db.tickets db.events t.qrToken = none :=
    findTicketJoin_none_of_external t.qrToken db.events db.tickets huniq
  refine ⟨hjoin, ?_, ?_⟩
  · unfold verifyTicket
    rw [hjoin]
  · unfold scanTicket
    rw [hjoin]

/-- Witness for `external_ticket_not_found` on the concrete
`externalTicket` row. -/
theorem external_ticket_not_found_witness :
    findTicketJoin externalTicketDB.tickets externalTicketDB.events "qt9" = none ∧
    verifyTicket externalTicketDB "qt9" 1400000 = VerifyOutcome.notFound ∧
    scanTicket externalTicketDB "qt9" "host@example.com" 1400000 =
      Except.error ScanError.notFound :=
  external_ticket_not_found externalTicketDB externalTicket 1400000 "host@example.com"
    (by decide) (by decide) (by decide) (by decide)

theorem lor_eq_zero_iff (m n : Nat) : m ||| n = 0 ↔ m = 0 ∧ n = 0 := by
  constructor
  · intro h
    constructor
    · apply Nat.eq_of_testBit_eq
      intro i
      have hbit := congrArg (fun x => Nat.testBit x i) h
      simp only [Nat.testBit_lor, Nat.zero_testBit, Bool.or_eq_false_iff] at hbit
      simp [hbit.1]
    · apply Nat.eq_of_testBit_eq
      intro i
      have hbit := congrArg (fun x => Nat.testBit x i) h
      simp only [Nat.testBit_lor, Nat.zero_testBit, Bool.or_eq_false_iff] at hbit
      simp [hbit.2]
  · rintro ⟨rfl, rfl⟩
    rfl

theorem ctcFold_eq_zero :
    ∀ (as bs : List Char) (r : Nat),
      ctcFold as bs r = 0 ↔ r = 0 ∧ ctcFold as bs 0 = 0 := by
  intro as
  induction as with
  | nil => intro bs r; simp [ctcFold]
  | cons a as ih =>
    intro bs r
    cases bs with
    | nil => simp [ctcFold]
    | cons b bs =>
      show ctcFold as bs (r ||| (a.toNat ^^^ b.toNat)) = 0 ↔
        r = 0 ∧ ctcFold as bs (0 ||| (a.toNat ^^^ b.toNat)) = 0
      rw [ih bs (r ||| (a.toNat ^^^ b.toNat)), ih bs (0 ||| (a.toNat ^^^ b.toNat)),
        lor_eq_zero_iff, lor_eq_zero_iff]
      tauto

theorem char_eq_of_toNat_eq {a b : Char} (h : a.toNat = b.toNat) : a = b :=
  Char.ext (UInt32.eq_of_toBitVec_eq (BitVec.eq_of_toNat_eq h))

theorem ctcFold_zero_iff_eq :
    ∀ as bs : List Char, as.length = bs.length → (ctcFold as bs 0 = 0 ↔ as = bs) := by
  intro as
  induction as with
  | nil =>
    intro bs h
    cases bs with
    | nil => simp [ctcFold]
    | cons b bs => simp at h
  | cons a as ih =>
    intro bs h
    cases bs with
    | nil => simp at h
    | cons b bs =>
      have hlen : as.length = bs.length := by simpa using h
      show ctcFold as bs (0 ||| (a.toNat ^^^ b.toNat)) = 0 ↔ a :: as = b :: bs
      rw [ctcFold_eq_zero, lor_eq_zero_iff, Nat.xor_eq_zero, ih bs hlen, List.cons_eq_cons]
      constructor
      · rintro ⟨⟨_, hx⟩, hl⟩
        exact ⟨char_eq_of_toNat_eq hx, hl⟩
      · rintro ⟨hx, hl⟩
        exact ⟨⟨rfl, by rw [hx]⟩, hl⟩

/-- The or-of-xors comparison agrees with string equality: it returns
true exactly when the two strings are equal. -/
theorem constantTimeCompare_iff (a b : String) :
    constantTimeCompare a b = true ↔ a = b := by
  unfold constantTimeCompare
  by_cases hlen : a.length = b.length
  · rw [if_pos hlen, decide_eq_true_eq, ctcFold_zero_iff_eq a.toList b.toList hlen]
    constructor
    · intro h
      exact String.ext h
    · intro h
      rw [h]
  · rw [if_neg hlen]
    simp only [Bool.false_eq_true, false_iff]
    intro h
    exact hlen (by rw [h])

theorem ctc_self (a : String) : constantTimeCompare a a = true :=
  (constantTimeCompare_iff a a).mpr rfl

theorem ctc_false_of_ne {a b : String} (h : a ≠ b) :
    ¬ constantTimeCompare a b = true := by
  intro hc
  exact h ((constantTimeCompare_iff a b).mp hc)

/-- An incorrect attempt within TTL and under the ceiling returns false
and re-persists the record with the attempt counter incremented. -/
theorem otp_wrong_attempt (e : OTPData) (w : String) (now : Int)
    (hw : w ≠ e.code) (hk : e.attempts < maxOtpAttempts)
    (httl : 1000 ≤ e.expiresAt - now) :
    verifyOTP (some e) w now =
      (OTPOutcome.result false, some { e with attempts := e.attempts + 1 }) := by
  have hexp : ¬ e.expiresAt < now := by omega
  have hk' : ¬ maxOtpAttempts ≤ e.attempts := by omega
  unfold verifyOTP
  dsimp only
  rw [if_neg hexp, if_neg hk', if_neg (ctc_false_of_ne hw), if_pos httl]

/-- A correct attempt within TTL and under the ceiling returns true and
deletes the record. -/
theorem otp_correct_attempt (e : OTPData) (now : Int)
    (hk : e.attempts < maxOtpAttempts) (hexp : now ≤ e.expiresAt) :
    verifyOTP (some e) e.code now = (OTPOutcome.result true, none) := by
  have hexp' : ¬ e.expiresAt < now := by omega
  have hk' : ¬ maxOtpAttempts ≤ e.attempts := by omega
  unfold verifyOTP
  dsimp only
  rw [if_neg hexp', if_neg hk', if_pos (ctc_self e.code)]

/-- C9: with the attempt ceiling fixed at 3, three incorrect attempts
followed by a fourth attempt carrying the correct code fail with
TooManyAttempts and delete the record; a correct code supplied within
TTL before the ceiling returns true exactly once, deleting the record so
any further attempt returns false. -/
theorem otp_ceiling_and_single_use (d : OTPData) (w1 w2 w3 : String) (now : Int)
    (hfresh : d.attempts = 0)
    (httl : 1000 ≤ d.expiresAt - now)
    (hw1 : w1 ≠ d.code) (hw2 : w2 ≠ d.code) (hw3 : w3 ≠ d.code) :
    verifyOTP ((verifyOTP ((verifyOTP ((verifyOTP (some d) w1 now).2) w2 now).2) w3 now).2)
      d.code now = (OTPOutcome.tooManyAttempts, none) ∧
    (∀ e : OTPData, e.attempts < maxOtpAttempts → now ≤ e.expiresAt →
      verifyOTP (some e) e.code now = (OTPOutcome.result true, none)) ∧
    verifyOTP none d.code now = (OTPOutcome.result false, none) := by
  refine ⟨?_, fun e hk hexp => otp_correct_attempt e now hk hexp, rfl⟩
  have h1 := otp_wrong_attempt d w1 now hw1
    (show d.attempts < maxOtpAttempts by unfold maxOtpAttempts; omega) httl
  have h2 := otp_wrong_attempt { d with attempts := d.attempts + 1 } w2 now hw2
    (show d.attempts + 1 < maxOtpAttempts by unfold maxOtpAttempts; omega) httl
  have h3 := otp_wrong_attempt { d with attempts := d.attempts + 1 + 1 } w3 now hw3
    (show d.attempts + 1 + 1 < maxOtpAttempts by unfold maxOtpAttempts; omega) httl
  rw [h1]
  dsimp only
  rw [h2]
  dsimp only
  rw [h3]
  dsimp only
  have hexp : ¬ d.expiresAt < now := by omega
  have hceil : maxOtpAttempts ≤ d.attempts + 1 + 1 + 1 := by
    unfold maxOtpAttempts; omega
  unfold verifyOTP
  dsimp only
  rw [if_neg hexp, if_pos hceil]

/-- Witness for `otp_ceiling_and_single_use` on the concrete record
`sampleOtp` (code "123456"): three wrong codes then the right one at
time 0. -/
theorem otp_ceiling_and_single_use_witness :
    verifyOTP ((verifyOTP ((verifyOTP ((verifyOTP (some sampleOtp) "000000" 0).2)
      "111111" 0).2) "222222" 0).2) "123456" 0 = (OTPOutcome.tooManyAttempts, none) ∧
    (∀ e : OTPData, e.attempts < maxOtpAttempts → (0 : Int) ≤ e.expiresAt →
      verifyOTP (some e) e.code 0 = (OTPOutcome.result true, none)) ∧
    verifyOTP none "123456" 0 = (OTPOutcome.result false, none) :=
  otp_ceiling_and_single_use sampleOtp "000000" "111111" "222222" 0
    (by decide) (by decide) (by decide) (by decide) (by decide)

end Vibesy
